import Mathlib

/-!
# Pantry Tracker frontend — polling and cache protocol, shallow embedding

This file embeds the job-polling and client-side cache logic of the
Pantry Tracker frontend and proves the spec's testable properties against it.

The repository has four status-check pollers (three call sites, with the
login-by-email poller appearing in two variants):

* `SignupDataLoadingPoll` — `checkDataLoadingStatus` in the signup page
  (src/unnamed/part_000, lines 147-180): recursive `setTimeout` every 2000 ms.
* `ApiLoginPoll` — `checkDataFetchStatus` in the login page bundled with
  src/lib/api.ts (lines 73-105): recursive `setTimeout` every 3000 ms,
  throws on a non-2xx response.
* `LoginPagePoll` — `checkDataFetchStatus` in src/app/login/page.tsx
  (lines 38-67): recursive `setTimeout` every 5000 ms, handles a non-2xx
  response in its `else` branch without throwing.
* `Part001Poll` — the `statusCheckInterval` `useEffect` in the alternative
  signup page (src/unnamed/part_001, lines 84-138): `setInterval` every
  5000 ms, bearer-authenticated.

The dashboard cache (src/app/page.tsx) stores `dashboardData`, `myList` and
`lastFetchTime` in browser storage and serves the cached dashboard when the
entry is younger than one hour.
-/

/-- A parsed status-check HTTP response: `ok` is `response.ok` (2xx),
`status` the JSON `status` field (absent fields are modelled by a string
that is none of the recognised values), `progress` the optional JSON
`progress` field. -/
structure StatusResponse where
  ok : Bool
  status : String
  progress : Option Int
  deriving DecidableEq, Repr

/-- The outcome of one status-check request: either a response (of any HTTP
status) or a transport/parse failure that lands in the `catch` block before
a response object is examined. -/
inductive CheckOutcome where
  | response (r : StatusResponse)
  | networkFailure
  deriving DecidableEq, Repr

/-- JS `data.progress >= 100`: `undefined >= 100` is `false`, so an absent
progress field never counts as complete. -/
def progressGe100 : Option Int → Bool
  | none => false
  | some p => 100 ≤ p

/-- An outcome in which a 2xx response reported a terminal job state
(`"completed"` or `"failed"`). The pollers that throw on `!response.ok`
never read the body of a non-2xx response, so only `ok = true` responses
count as observations of a job state. -/
def isTerminalObservation : CheckOutcome → Bool
  | .response r => r.ok && (r.status == "completed" || r.status == "failed")
  | .networkFailure => false

/-- A failure of the status check itself (not of the job): a transport
error or a non-2xx response. -/
def isCheckFailure : CheckOutcome → Bool
  | .response r => !r.ok
  | .networkFailure => true

namespace SignupDataLoadingPoll

/-- What one run of `checkDataLoadingStatus` (src/unnamed/part_000,
lines 147-180) does with the outcome of its status request. -/
inductive Action where
  /-- `status === "completed" || progress >= 100`: stop, success toast,
  `router.push("/login?message=Your account is ready! ...")`. -/
  | accountReady
  /-- `status === "failed"`: stop, error toast, push to `/login` with an
  issue message. -/
  | setupFailed
  /-- any other 2xx response: `setTimeout(() => checkDataLoadingStatus(userId), 2000)`. -/
  | keepPolling
  /-- `catch`: log, then redirect to `/login` after 5000 ms; no further check. -/
  | errorRedirect
  deriving DecidableEq, Repr

/-- src/unnamed/part_000, lines 147-180. A non-2xx response hits
`throw new Error(...)` and therefore the `catch` branch. -/
def step : CheckOutcome → Action
  | .networkFailure => .errorRedirect
  | .response r =>
    if !r.ok then .errorRedirect
    else if r.status == "completed" || progressGe100 r.progress then .accountReady
    else if r.status == "failed" then .setupFailed
    else .keepPolling

/-- The poller issues another status check exactly when the handler
schedules one. -/
def continues (o : CheckOutcome) : Bool := step o == .keepPolling

end SignupDataLoadingPoll

namespace ApiLoginPoll

/-- What one run of `checkDataFetchStatus` (login page bundled in
src/lib/api.ts, lines 73-105) does with the outcome of its request. -/
inductive Action where
  /-- `status === "completed"`: stop, clear `pendingLoginEmail`, show the
  account-ready message. -/
  | accountReady
  /-- the `else` branch (failed, or user does not exist): stop and clear
  `pendingLoginEmail`. -/
  | stopOther
  /-- `status === "pending"`: `setTimeout(() => checkDataFetchStatus(email), 3000)`. -/
  | keepPolling
  /-- `catch`: log and `setIsCheckingStatus(false)`; no further check. -/
  | stopOnError
  deriving DecidableEq, Repr

/-- src/lib/api.ts, lines 73-105. `if (!response.ok) throw ...` lands in
the `catch` branch. -/
def step : CheckOutcome → Action
  | .networkFailure => .stopOnError
  | .response r =>
    if !r.ok then .stopOnError
    else if r.status == "completed" then .accountReady
    else if r.status == "pending" then .keepPolling
    else .stopOther

/-- The poller issues another status check exactly when the handler
schedules one. -/
def continues (o : CheckOutcome) : Bool := step o == .keepPolling

end ApiLoginPoll

namespace LoginPagePoll

/-- src/app/login/page.tsx, lines 38-67: same protocol as `ApiLoginPoll`
but a non-2xx response is not thrown; it falls into the `else` branch
(`response.ok && ...` guards), and the reschedule delay is 5000 ms. -/
def step : CheckOutcome → ApiLoginPoll.Action
  | .networkFailure => .stopOnError
  | .response r =>
    if r.ok && r.status == "completed" then .accountReady
    else if r.ok && r.status == "pending" then .keepPolling
    else .stopOther

/-- The poller issues another status check exactly when the handler
schedules one. -/
def continues (o : CheckOutcome) : Bool := step o == ApiLoginPoll.Action.keepPolling

end LoginPagePoll

namespace Part001Poll

/-- What one tick of the `statusCheckInterval` callback
(src/unnamed/part_001, lines 88-130) does with the outcome of its request. -/
inductive Action where
  /-- `status === "completed"`: `clearInterval`, push to the login page. -/
  | completedStop
  /-- `status === "failed"`: `clearInterval`, error banner, delayed push. -/
  | failedStop
  /-- `pending` or any other 2xx body: no branch taken, the interval keeps
  firing every 5000 ms. -/
  | keepPolling
  /-- `catch`: `console.error` only — the interval is NOT cleared, so the
  next tick still fires. -/
  | errorKeepPolling
  deriving DecidableEq, Repr

/-- src/unnamed/part_001, lines 88-130. `if (!response.ok) throw ...`
lands in the `catch` branch, which does not clear the interval. -/
def step : CheckOutcome → Action
  | .networkFailure => .errorKeepPolling
  | .response r =>
    if !r.ok then .errorKeepPolling
    else if r.status == "completed" then .completedStop
    else if r.status == "failed" then .failedStop
    else .keepPolling

/-- The interval fires again (and hence another status check is issued)
whenever the tick did not call `clearInterval`. -/
def continues (o : CheckOutcome) : Bool :=
  step o == .keepPolling || step o == .errorKeepPolling

/-- `setInterval(..., 5000)` — src/unnamed/part_001, line 130. -/
def periodMs : Nat := 5000

end Part001Poll

/-- Number of status checks a poller performs along a trace of outcomes:
outcome `i` answers check `i`; check `i+1` is issued only if the handler
for outcome `i` keeps polling. A trace that ends while the poller still
polls leaves it awaiting further outcomes. -/
def checksPerformed (continues : CheckOutcome → Bool) : List CheckOutcome → Nat
  | [] => 0
  | o :: rest => 1 + (if continues o then checksPerformed continues rest else 0)

/-- Generic absorbing-state lemma: if a poller's handler never reschedules
after a terminal observation, then as soon as the trace shows a terminal
outcome at a processed position, the trace's total number of checks is
exactly that position plus one. -/
theorem checksPerformed_stops_at_terminal
    (continues : CheckOutcome → Bool)
    (hstop : ∀ o, isTerminalObservation o = true → continues o = false) :
    ∀ (os : List CheckOutcome) (i : Nat) (h : i < os.length),
      isTerminalObservation (os.get ⟨i, h⟩) = true →
      i < checksPerformed continues os →
      checksPerformed continues os = i + 1 := by
  intro os
  induction os with
  | nil => intro i h; exact absurd h (by simp)
  | cons o rest ih =>
    intro i h hterm hproc
    cases i with
    | zero =>
      simp only [List.get] at hterm
      simp [checksPerformed, hstop o hterm]
    | succ j =>
      simp only [List.get] at hterm
      have hc : continues o = true := by
        by_contra hc
        simp only [checksPerformed, if_neg hc] at hproc
        omega
      have hj : j < rest.length := by
        simpa using h
      have hproc' : j < checksPerformed continues rest := by
        simp only [checksPerformed, if_pos hc] at hproc
        omega
      have heq := ih j hj hterm hproc'
      simp only [checksPerformed, if_pos hc, heq]
      omega

/-- The signup data-loading poller never reschedules after observing a
terminal job state. -/
theorem signup_terminal_stops (o : CheckOutcome)
    (h : isTerminalObservation o = true) :
    SignupDataLoadingPoll.continues o = false := by
  cases o with
  | networkFailure => simp [isTerminalObservation] at h
  | response r =>
    simp only [isTerminalObservation, Bool.and_eq_true, Bool.or_eq_true,
      beq_iff_eq] at h
    obtain ⟨hok, hst⟩ := h
    simp only [SignupDataLoadingPoll.continues, SignupDataLoadingPoll.step, hok]
    rcases hst with hc | hf
    · simp [hc]
    · rw [hf]
      cases hp : progressGe100 r.progress <;> simp [hp]

/-- The `api.ts` login poller never reschedules after observing a terminal
job state. -/
theorem apiLogin_terminal_stops (o : CheckOutcome)
    (h : isTerminalObservation o = true) :
    ApiLoginPoll.continues o = false := by
  cases o with
  | networkFailure => simp [isTerminalObservation] at h
  | response r =>
    simp only [isTerminalObservation, Bool.and_eq_true, Bool.or_eq_true,
      beq_iff_eq] at h
    obtain ⟨hok, hst⟩ := h
    simp only [ApiLoginPoll.continues, ApiLoginPoll.step, hok]
    rcases hst with hc | hf
    · simp [hc]
    · rw [hf]
      simp

/-- The login-page poller never reschedules after observing a terminal job
state. -/
theorem loginPage_terminal_stops (o : CheckOutcome)
    (h : isTerminalObservation o = true) :
    LoginPagePoll.continues o = false := by
  cases o with
  | networkFailure => simp [isTerminalObservation] at h
  | response r =>
    simp only [isTerminalObservation, Bool.and_eq_true, Bool.or_eq_true,
      beq_iff_eq] at h
    obtain ⟨hok, hst⟩ := h
    simp only [LoginPagePoll.continues, LoginPagePoll.step, hok]
    rcases hst with hc | hf
    · simp [hc]
    · rw [hf]
      simp

/-- The `setInterval` tick handler clears its interval after observing a
terminal job state. -/
theorem part001_terminal_stops (o : CheckOutcome)
    (h : isTerminalObservation o = true) :
    Part001Poll.continues o = false := by
  cases o with
  | networkFailure => simp [isTerminalObservation] at h
  | response r =>
    simp only [isTerminalObservation, Bool.and_eq_true, Bool.or_eq_true,
      beq_iff_eq] at h
    obtain ⟨hok, hst⟩ := h
    simp only [Part001Poll.continues, Part001Poll.step, hok]
    rcases hst with hc | hf
    · simp [hc]
    · rw [hf]
      simp

/-- C1: for every polling call site (signup data-loading poll, both
login-by-email poll variants, authenticated signup status poll), once a
status-check response with state "completed" or "failed" has been observed
for a job handle, no further status-check request is ever issued for that
handle: along any outcome trace, a processed terminal observation at
position `i` makes the total number of checks exactly `i + 1`. -/
theorem C1_terminal_states_absorbing
    (os : List CheckOutcome) (i : Nat) (h : i < os.length)
    (hterm : isTerminalObservation (os.get ⟨i, h⟩) = true) :
    (i < checksPerformed SignupDataLoadingPoll.continues os →
      checksPerformed SignupDataLoadingPoll.continues os = i + 1) ∧
    (i < checksPerformed ApiLoginPoll.continues os →
      checksPerformed ApiLoginPoll.continues os = i + 1) ∧
    (i < checksPerformed LoginPagePoll.continues os →
      checksPerformed LoginPagePoll.continues os = i + 1) ∧
    (i < checksPerformed Part001Poll.continues os →
      checksPerformed Part001Poll.continues os = i + 1) :=
  ⟨checksPerformed_stops_at_terminal _ signup_terminal_stops os i h hterm,
   checksPerformed_stops_at_terminal _ apiLogin_terminal_stops os i h hterm,
   checksPerformed_stops_at_terminal _ loginPage_terminal_stops os i h hterm,
   checksPerformed_stops_at_terminal _ part001_terminal_stops os i h hterm⟩

/-- A trace in which the first check reports "completed" and a second
outcome would be available if anything asked for it. -/
def completedThenSpare : List CheckOutcome :=
  [CheckOutcome.response ⟨true, "completed", none⟩, CheckOutcome.networkFailure]

/-- Witness for C1 at a concrete trace: the first outcome is terminal, so
every poller performs exactly one check even though a second outcome is
available. -/
theorem C1_terminal_states_absorbing_witness :
    (0 < checksPerformed SignupDataLoadingPoll.continues completedThenSpare →
      checksPerformed SignupDataLoadingPoll.continues completedThenSpare = 1) ∧
    (0 < checksPerformed ApiLoginPoll.continues completedThenSpare →
      checksPerformed ApiLoginPoll.continues completedThenSpare = 1) ∧
    (0 < checksPerformed LoginPagePoll.continues completedThenSpare →
      checksPerformed LoginPagePoll.continues completedThenSpare = 1) ∧
    (0 < checksPerformed Part001Poll.continues completedThenSpare →
      checksPerformed Part001Poll.continues completedThenSpare = 1) :=
  C1_terminal_states_absorbing completedThenSpare 0 (by decide) (by decide)

/-- C2 as stated is false: a failed status check (here a transport error)
does not stop the authenticated signup poller — its `catch` only logs and
the interval is not cleared, so a second check is issued right after the
failed one. -/
theorem C2_counterexample :
    isCheckFailure CheckOutcome.networkFailure = true ∧
    Part001Poll.continues CheckOutcome.networkFailure = true ∧
    checksPerformed Part001Poll.continues
      [CheckOutcome.networkFailure, CheckOutcome.networkFailure] = 2 := by
  decide

/-- C2 amended: a failed status check (transport error or non-2xx
response) stops the signup data-loading poller and both login-by-email
pollers, but the authenticated signup poller's interval keeps firing, so
that call site silently retries the check at the next tick. -/
theorem C2_amended_failed_check (o : CheckOutcome)
    (h : isCheckFailure o = true) :
    SignupDataLoadingPoll.continues o = false ∧
    ApiLoginPoll.continues o = false ∧
    LoginPagePoll.continues o = false ∧
    Part001Poll.continues o = true := by
  cases o with
  | networkFailure => decide
  | response r =>
    simp only [isCheckFailure, Bool.not_eq_true'] at h
    simp [SignupDataLoadingPoll.continues, SignupDataLoadingPoll.step,
      ApiLoginPoll.continues, ApiLoginPoll.step,
      LoginPagePoll.continues, LoginPagePoll.step,
      Part001Poll.continues, Part001Poll.step, h]

/-- Witness for the amended C2 at a concrete failed check (an HTTP 500
response, which every call site routes through its failure path). -/
theorem C2_amended_failed_check_witness :
    SignupDataLoadingPoll.continues (CheckOutcome.response ⟨false, "pending", none⟩) = false ∧
    ApiLoginPoll.continues (CheckOutcome.response ⟨false, "pending", none⟩) = false ∧
    LoginPagePoll.continues (CheckOutcome.response ⟨false, "pending", none⟩) = false ∧
    Part001Poll.continues (CheckOutcome.response ⟨false, "pending", none⟩) = true :=
  C2_amended_failed_check (CheckOutcome.response ⟨false, "pending", none⟩) (by decide)

/-- Start time of check `i` for the recursive `setTimeout` pollers: the
first check starts at time 0; check `i+1` is scheduled `delay` ms after
check `i`'s response (with latency `lat i`) has been processed. -/
def seqStart (delay : Nat) (lat : Nat → Nat) : Nat → Nat
  | 0 => 0
  | i + 1 => seqStart delay lat i + lat i + delay

/-- Completion time of check `i` under recursive `setTimeout` scheduling. -/
def seqFinish (delay : Nat) (lat : Nat → Nat) (i : Nat) : Nat :=
  seqStart delay lat i + lat i

/-- Start time of tick `i` for the `setInterval` poller: ticks fire at
`period, 2*period, ...`, independent of whether earlier responses have
arrived. -/
def intervalStart (period : Nat) (i : Nat) : Nat := (i + 1) * period

/-- Completion time of tick `i`'s request under `setInterval` scheduling. -/
def intervalFinish (period : Nat) (lat : Nat → Nat) (i : Nat) : Nat :=
  intervalStart period i + lat i

/-- Under recursive `setTimeout` scheduling, an earlier check always
completes before a later one starts. -/
theorem seqFinish_le_seqStart (delay : Nat) (lat : Nat → Nat) :
    ∀ i j, i < j → seqFinish delay lat i ≤ seqStart delay lat j := by
  intro i j hij
  induction j with
  | zero => omega
  | succ k ih =>
    rcases Nat.lt_succ_iff_lt_or_eq.mp hij with h | h
    · refine le_trans (ih h) ?_
      simp only [seqStart]
      omega
    · subst h
      simp only [seqStart, seqFinish]
      omega

/-- C3 as stated is false: the authenticated signup poller
(src/unnamed/part_001) schedules tick N+1 with `setInterval`, not after
tick N's response is processed; with a response latency of 6000 ms
(exceeding the 5000 ms period), tick 1 starts at 10000 ms while tick 0's
request, started at 5000 ms, is still in flight until 11000 ms. -/
theorem C3_counterexample :
    intervalStart Part001Poll.periodMs 1 <
      intervalFinish Part001Poll.periodMs (fun _ => 6000) 0 := by
  norm_num [intervalStart, intervalFinish, Part001Poll.periodMs]

/-- C3 amended: the three recursive `setTimeout` pollers are strictly
sequential — for every latency assignment, check `i` completes before
check `j > i` starts, so no two of their checks ever overlap; the
`setInterval` poller of the authenticated signup call site does not have
this property: some latency assignment makes tick 1 start before tick 0's
response arrives. -/
theorem C3_amended_no_overlap (delay : Nat) (lat : Nat → Nat) (i j : Nat)
    (h : i < j) :
    seqFinish delay lat i ≤ seqStart delay lat j ∧
    ∃ lat2 : Nat → Nat, intervalStart Part001Poll.periodMs 1 <
      intervalFinish Part001Poll.periodMs lat2 0 :=
  ⟨seqFinish_le_seqStart delay lat i j h, ⟨fun _ => 6000, C3_counterexample⟩⟩

/-- Witness for the amended C3 at the signup data-loading poller's 2000 ms
delay with a constant 1000 ms latency. -/
theorem C3_amended_no_overlap_witness :
    seqFinish 2000 (fun _ => 1000) 0 ≤ seqStart 2000 (fun _ => 1000) 1 ∧
    ∃ lat2 : Nat → Nat, intervalStart Part001Poll.periodMs 1 <
      intervalFinish Part001Poll.periodMs lat2 0 :=
  C3_amended_no_overlap 2000 (fun _ => 1000) 0 1 (by decide)

/-- The cache freshness window: one hour in milliseconds
(src/app/page.tsx, line 458). -/
def freshnessWindowMs : Int := 3600000

/-- Freshness of a stored timestamp (epoch milliseconds) at time `now`
against a window: strictly `now - fetchedAt < window`, and an absent
timestamp is never fresh (the `lastFetchTime && ...` guard). -/
def isFresh (lastFetchTime : Option Int) (now window : Int) : Bool :=
  match lastFetchTime with
  | none => false
  | some t => decide (now - t < window)

/-- src/app/page.tsx, line 458:
`lastFetchTime && currentTime - Number.parseInt(lastFetchTime) < 3600000`. -/
def isCacheValid (lastFetchTime : Option Int) (now : Int) : Bool :=
  isFresh lastFetchTime now freshnessWindowMs

/-- What the dashboard branch of the mount effect does
(src/app/page.tsx, lines 460-483). -/
inductive DashboardLoadAction where
  | serveCache
  | fetchNetwork
  | noAction
  deriving DecidableEq, Repr

/-- src/app/page.tsx, lines 460-483: serve the cached value only when a
cached entry exists, the cache is younger than an hour and data was not
already loaded; fall back to the network fetch when the cached JSON fails
to parse; fetch when data was not already loaded; otherwise do nothing. -/
def dashboardLoadAction (cachedPresent parseOk : Bool)
    (lastFetchTime : Option Int) (now : Int) (dataLoaded : Bool) :
    DashboardLoadAction :=
  if cachedPresent && isCacheValid lastFetchTime now && !dataLoaded then
    (if parseOk then .serveCache else .fetchNetwork)
  else if !dataLoaded then .fetchNetwork
  else .noAction

/-- C4: the dashboard cache freshness test is exactly the strict
comparison `now - fetchedAt < 3600000`; at age 30 minutes the cached value
is served without a fetch, and at age 90 minutes the entry is stale and a
refetch is triggered. -/
theorem C4_cache_freshness_window (t now : Int) :
    (isCacheValid (some t) now = true ↔ now - t < 3600000) ∧
    isCacheValid none now = false ∧
    dashboardLoadAction true true (some t) (t + 1800000) false =
      DashboardLoadAction.serveCache ∧
    dashboardLoadAction true true (some t) (t + 5400000) false =
      DashboardLoadAction.fetchNetwork := by
  refine ⟨?_, rfl, ?_, ?_⟩
  · simp [isCacheValid, isFresh, freshnessWindowMs]
  · simp only [dashboardLoadAction, isCacheValid, isFresh, freshnessWindowMs]
    norm_num
  · simp only [dashboardLoadAction, isCacheValid, isFresh, freshnessWindowMs]
    norm_num

/-- The browser-storage cache touched by the dashboard page: the two
cached values (stored as JSON strings) and the one shared `lastFetchTime`
stamp consulted for both of them. -/
structure CacheState where
  dashboardData : Option String
  myList : Option String
  lastFetchTime : Option Int
  deriving DecidableEq, Repr

/-- src/app/page.tsx, lines 625-626: a successful dashboard fetch writes
the formatted data together with the current time. -/
def writeDashboardCache (s : CacheState) (v : String) (now : Int) : CacheState :=
  { s with dashboardData := some v, lastFetchTime := some now }

/-- src/app/page.tsx, lines 655-656: a successful shopping-list fetch
writes only the `myList` value; `lastFetchTime` is not touched. -/
def writeMyListCache (s : CacheState) (v : String) : CacheState :=
  { s with myList := some v }

/-- C5 as stated is false: the shopping-list write does not store a
timestamp. Starting from a cache whose last (dashboard) fetch was at time
0, a `myList` write performed at time 7200000 leaves `lastFetchTime` at 0,
so immediately after the write the entry already fails the freshness test
for the 1-hour window (a positive window), instead of being fresh for
every positive window. -/
theorem C5_counterexample :
    (writeMyListCache ⟨none, none, some 0⟩ "fresh list").myList =
      some "fresh list" ∧
    (writeMyListCache ⟨none, none, some 0⟩ "fresh list").lastFetchTime =
      some 0 ∧
    (0 : Int) < freshnessWindowMs ∧
    isFresh (writeMyListCache ⟨none, none, some 0⟩ "fresh list").lastFetchTime
      7200000 freshnessWindowMs = false := by
  refine ⟨rfl, rfl, by norm_num [freshnessWindowMs], ?_⟩
  simp [writeMyListCache, isFresh, freshnessWindowMs]

/-- C5 amended: only the dashboard write stores `fetchedAt = now()`, and
immediately after it the entry is fresh for every positive window; the
shopping-list write stores the value without updating the timestamp, so
its freshness is still that of the last dashboard fetch. -/
theorem C5_amended_write_freshness (s : CacheState) (v : String)
    (now w : Int) (hw : 0 < w) :
    (writeDashboardCache s v now).lastFetchTime = some now ∧
    isFresh (writeDashboardCache s v now).lastFetchTime now w = true ∧
    (writeMyListCache s v).lastFetchTime = s.lastFetchTime := by
  refine ⟨rfl, ?_, rfl⟩
  simp [writeDashboardCache, isFresh]
  omega

/-- Witness for the amended C5 at a concrete cache state, value, time and
window. -/
theorem C5_amended_write_freshness_witness :
    (writeDashboardCache ⟨none, none, none⟩ "dash" 5).lastFetchTime =
      some 5 ∧
    isFresh (writeDashboardCache ⟨none, none, none⟩ "dash" 5).lastFetchTime
      5 1 = true ∧
    (writeMyListCache ⟨none, none, none⟩ "dash").lastFetchTime = none :=
  C5_amended_write_freshness ⟨none, none, none⟩ "dash" 5 1 (by norm_num)

/-- The React state of the dashboard screen that the fetch logic drives. -/
structure DashboardViewState where
  dashboardData : Option String
  dataLoaded : Bool
  dataLoading : Bool
  error : Option String
  cache : CacheState
  deriving DecidableEq, Repr

/-- Outcome of the `GET /dashboard` request inside `fetchDashboardData`. -/
inductive FetchResult where
  | success (v : String)
  | failure (msg : String)
  deriving DecidableEq, Repr

/-- `fetchDashboardData`, src/app/page.tsx lines 591-633: on success the
formatted data is stored in state and written to the cache with the
current time; on failure only the error message is set — the cached entry
is neither read nor written, and the rendered data stays as it was. -/
def fetchDashboardDataStep (s : DashboardViewState) (now : Int) :
    FetchResult → DashboardViewState
  | .success v =>
      { dashboardData := some v, dataLoaded := true, dataLoading := false,
        error := none, cache := writeDashboardCache s.cache v now }
  | .failure msg =>
      { s with error := some msg, dataLoading := false }

/-- What the dashboard screen shows for a given view state. -/
inductive DashboardRender where
  | spinner
  | errorBox (msg : String)
  | content (v : Option String)
  deriving DecidableEq, Repr

/-- src/app/page.tsx, lines 1245-1259: a spinner while `dataLoading`, else
the red error box with its retry button whenever `error` is set, else the
dashboard content. -/
def renderDashboard (s : DashboardViewState) : DashboardRender :=
  if s.dataLoading then .spinner
  else
    match s.error with
    | some m => .errorBox m
    | none => .content s.dashboardData

/-- The dashboard screen at mount with a stale cached entry (written at
time 0, viewed at time 7200000) and nothing rendered yet. -/
def staleCacheViewState : DashboardViewState :=
  { dashboardData := none, dataLoaded := false, dataLoading := true,
    error := none,
    cache := { dashboardData := some "stale dashboard json",
               myList := none, lastFetchTime := some 0 } }

/-- C6 as stated is false: with a stale cached entry present, the mount
effect refetches, and when that fetch fails the screen renders the hard
error box (with a retry button) — the stale cached value is never read,
let alone served with an "outdated" indicator. -/
theorem C6_counterexample :
    staleCacheViewState.cache.dashboardData = some "stale dashboard json" ∧
    isCacheValid staleCacheViewState.cache.lastFetchTime 7200000 = false ∧
    dashboardLoadAction true true (some 0) 7200000 false =
      DashboardLoadAction.fetchNetwork ∧
    renderDashboard (fetchDashboardDataStep staleCacheViewState 7200000
        (FetchResult.failure "Failed to fetch dashboard data")) =
      DashboardRender.errorBox "Failed to fetch dashboard data" ∧
    (fetchDashboardDataStep staleCacheViewState 7200000
        (FetchResult.failure "Failed to fetch dashboard data")).dashboardData =
      none := by
  refine ⟨rfl, ?_, ?_, rfl, rfl⟩
  · simp [staleCacheViewState, isCacheValid, isFresh, freshnessWindowMs]
  · simp only [dashboardLoadAction, isCacheValid, isFresh, freshnessWindowMs]
    norm_num

/-- C6 amended: when the dashboard fetch fails the screen always shows the
hard error box with the fetch's message, whatever the cache holds; the
rendered data and the cache are left untouched, so a stale entry is never
served as a degraded read. -/
theorem C6_amended_failure_renders_error (s : DashboardViewState)
    (now : Int) (msg : String) :
    renderDashboard (fetchDashboardDataStep s now (FetchResult.failure msg)) =
      DashboardRender.errorBox msg ∧
    (fetchDashboardDataStep s now (FetchResult.failure msg)).dashboardData =
      s.dashboardData ∧
    (fetchDashboardDataStep s now (FetchResult.failure msg)).cache = s.cache := by
  refine ⟨?_, rfl, rfl⟩
  simp [renderDashboard, fetchDashboardDataStep]

/-- The signup data-loading poller treats the outcome as a successful
completion (success toast + redirect to login as ready). -/
def SignupDataLoadingPoll.isSuccess (o : CheckOutcome) : Bool :=
  SignupDataLoadingPoll.step o == SignupDataLoadingPoll.Action.accountReady

/-- The `api.ts` login poller treats the outcome as a successful
completion (account-ready message). -/
def ApiLoginPoll.isSuccess (o : CheckOutcome) : Bool :=
  ApiLoginPoll.step o == ApiLoginPoll.Action.accountReady

/-- The login-page poller treats the outcome as a successful completion. -/
def LoginPagePoll.isSuccess (o : CheckOutcome) : Bool :=
  LoginPagePoll.step o == ApiLoginPoll.Action.accountReady

/-- The `setInterval` poller treats the outcome as a successful
completion (redirect to login as registration complete). -/
def Part001Poll.isSuccess (o : CheckOutcome) : Bool :=
  Part001Poll.step o == Part001Poll.Action.completedStop

/-- C7 as stated is false: a 2xx response whose status is none of
"pending"/"completed"/"failed" does not stop the signup data-loading
poller or the authenticated signup poller — both fall into the branch
that keeps polling. -/
theorem C7_counterexample :
    SignupDataLoadingPoll.continues
      (CheckOutcome.response ⟨true, "unrecognized", some 0⟩) = true ∧
    Part001Poll.continues
      (CheckOutcome.response ⟨true, "unrecognized", some 0⟩) = true := by
  decide

/-- C7 amended: a 2xx response with an unrecognized status stops both
login-by-email pollers and is not treated as a completion there; the
authenticated signup poller keeps polling on it (treating it like
pending), also without treating it as a completion; the signup
data-loading poller keeps polling on it only while the response's
progress field is below 100 — with progress ≥ 100 it treats the
unrecognized response as a successful completion. -/
theorem C7_amended_unrecognized_status (r : StatusResponse)
    (hok : r.ok = true) (hp : r.status ≠ "pending")
    (hc : r.status ≠ "completed") (hf : r.status ≠ "failed") :
    ApiLoginPoll.continues (CheckOutcome.response r) = false ∧
    ApiLoginPoll.isSuccess (CheckOutcome.response r) = false ∧
    LoginPagePoll.continues (CheckOutcome.response r) = false ∧
    LoginPagePoll.isSuccess (CheckOutcome.response r) = false ∧
    Part001Poll.continues (CheckOutcome.response r) = true ∧
    Part001Poll.isSuccess (CheckOutcome.response r) = false ∧
    SignupDataLoadingPoll.isSuccess (CheckOutcome.response r) =
      progressGe100 r.progress ∧
    SignupDataLoadingPoll.continues (CheckOutcome.response r) =
      !progressGe100 r.progress := by
  have hp' : (r.status == "pending") = false := beq_eq_false_iff_ne.mpr hp
  have hc' : (r.status == "completed") = false := beq_eq_false_iff_ne.mpr hc
  have hf' : (r.status == "failed") = false := beq_eq_false_iff_ne.mpr hf
  cases hpg : progressGe100 r.progress <;>
    simp [ApiLoginPoll.continues, ApiLoginPoll.step, ApiLoginPoll.isSuccess,
      LoginPagePoll.continues, LoginPagePoll.step, LoginPagePoll.isSuccess,
      Part001Poll.continues, Part001Poll.step, Part001Poll.isSuccess,
      SignupDataLoadingPoll.continues, SignupDataLoadingPoll.step,
      SignupDataLoadingPoll.isSuccess, hok, hp', hc', hf', hpg]

/-- Witness for the amended C7 at a concrete unrecognized 2xx response. -/
theorem C7_amended_unrecognized_status_witness :
    ApiLoginPoll.continues (CheckOutcome.response ⟨true, "weird", some 0⟩) = false ∧
    ApiLoginPoll.isSuccess (CheckOutcome.response ⟨true, "weird", some 0⟩) = false ∧
    LoginPagePoll.continues (CheckOutcome.response ⟨true, "weird", some 0⟩) = false ∧
    LoginPagePoll.isSuccess (CheckOutcome.response ⟨true, "weird", some 0⟩) = false ∧
    Part001Poll.continues (CheckOutcome.response ⟨true, "weird", some 0⟩) = true ∧
    Part001Poll.isSuccess (CheckOutcome.response ⟨true, "weird", some 0⟩) = false ∧
    SignupDataLoadingPoll.isSuccess (CheckOutcome.response ⟨true, "weird", some 0⟩) =
      progressGe100 (some 0) ∧
    SignupDataLoadingPoll.continues (CheckOutcome.response ⟨true, "weird", some 0⟩) =
      !progressGe100 (some 0) :=
  C7_amended_unrecognized_status ⟨true, "weird", some 0⟩ rfl
    (by decide) (by decide) (by decide)

/-- State of the login page's status-check chain across lifecycle events:
whether the component is mounted, whether a `setTimeout` recheck is
scheduled, the `isCheckingStatus` flag, and how many status requests have
been issued so far. -/
structure TimeoutChainState where
  mounted : Bool
  timerScheduled : Bool
  checking : Bool
  requestsIssued : Nat
  deriving DecidableEq, Repr

/-- Lifecycle events hitting the login page's status-check chain. -/
inductive TimeoutChainEvent where
  | unmount
  | timerFires (o : CheckOutcome)
  deriving DecidableEq, Repr

/-- src/app/login/page.tsx: the status-check `useEffect` (lines 24-36)
returns no cleanup, so unmounting only unmounts — a scheduled `setTimeout`
survives; when it fires, `checkDataFetchStatus` (lines 38-67) runs
unconditionally: it issues a request, updates `isCheckingStatus` from the
outcome, and reschedules itself on "pending". No branch of the handler
consults whether the component is still mounted. -/
def loginChainStep (s : TimeoutChainState) :
    TimeoutChainEvent → TimeoutChainState
  | .unmount => { s with mounted := false }
  | .timerFires o =>
      if s.timerScheduled then
        { mounted := s.mounted
          timerScheduled := LoginPagePoll.continues o
          checking := if LoginPagePoll.continues o then s.checking else false
          requestsIssued := s.requestsIssued + 1 }
      else s

/-- Run the login status-check chain over a list of events. -/
def runLoginChain (s : TimeoutChainState) (es : List TimeoutChainEvent) :
    TimeoutChainState :=
  es.foldl loginChainStep s

/-- C8 as stated is false: the login page's poller has no cancellation.
Starting from a state where one check has been issued and its "pending"
response scheduled a recheck, after the view unmounts the scheduled tick
still fires: it issues a second status-check request and, on another
"pending" response, schedules yet another one. -/
theorem C8_counterexample :
    (runLoginChain ⟨true, true, true, 1⟩
        [TimeoutChainEvent.unmount,
         TimeoutChainEvent.timerFires
           (CheckOutcome.response ⟨true, "pending", none⟩)]).mounted = false ∧
    (runLoginChain ⟨true, true, true, 1⟩
        [TimeoutChainEvent.unmount,
         TimeoutChainEvent.timerFires
           (CheckOutcome.response ⟨true, "pending", none⟩)]).requestsIssued = 2 ∧
    (runLoginChain ⟨true, true, true, 1⟩
        [TimeoutChainEvent.unmount,
         TimeoutChainEvent.timerFires
           (CheckOutcome.response ⟨true, "pending", none⟩)]).timerScheduled =
      true := by
  decide

/-- State of the authenticated signup poller across lifecycle events. -/
structure IntervalPollerState where
  intervalArmed : Bool
  isDataFetching : Bool
  navigatedToLogin : Bool
  requestsIssued : Nat
  deriving DecidableEq, Repr

/-- The body of the `statusCheckInterval` callback applied to an outcome
(src/unnamed/part_001, lines 89-129), however it was reached — nothing in
the body re-checks whether the effect has been cleaned up. -/
def part001Handle (s : IntervalPollerState) (o : CheckOutcome) :
    IntervalPollerState :=
  match Part001Poll.step o with
  | .completedStop =>
      { s with isDataFetching := false, navigatedToLogin := true,
               intervalArmed := false }
  | .failedStop =>
      { s with isDataFetching := false, navigatedToLogin := true,
               intervalArmed := false }
  | .keepPolling => s
  | .errorKeepPolling => s

/-- Lifecycle events hitting the authenticated signup poller: the effect
cleanup, an interval tick (whose request resolves with `o`), and the late
resolution of a request that was already in flight. -/
inductive IntervalEvent where
  | cleanup
  | tick (o : CheckOutcome)
  | lateResponse (o : CheckOutcome)
  deriving DecidableEq, Repr

/-- src/unnamed/part_001: the effect cleanup (lines 133-137) clears the
interval, so a later tick fires nothing; a tick while armed issues a
request and handles its outcome; a response already in flight when the
cleanup ran still runs the full handler body when it resolves. -/
def part001Step (s : IntervalPollerState) : IntervalEvent → IntervalPollerState
  | .cleanup => { s with intervalArmed := false }
  | .tick o =>
      if s.intervalArmed then
        part001Handle { s with requestsIssued := s.requestsIssued + 1 } o
      else s
  | .lateResponse o => part001Handle s o

/-- C8 amended: only the authenticated signup poller cancels anything on
unmount, and only its future ticks: its cleanup disarms the interval and a
tick after cleanup issues no request and changes nothing; but a response
in flight at cleanup time still runs the full handler when it resolves,
and the login page's `setTimeout` chain has no cancellation at all — its
unmount leaves the scheduled timer in place, and the timer still issues a
status-check request when it fires. -/
theorem C8_amended_cancellation (s s0 : IntervalPollerState)
    (o : CheckOutcome) (t : TimeoutChainState)
    (ht : t.timerScheduled = true) :
    (part001Step s0 IntervalEvent.cleanup).intervalArmed = false ∧
    part001Step { s with intervalArmed := false } (IntervalEvent.tick o) =
      { s with intervalArmed := false } ∧
    part001Step s0 (IntervalEvent.lateResponse o) = part001Handle s0 o ∧
    (loginChainStep t TimeoutChainEvent.unmount).timerScheduled =
      t.timerScheduled ∧
    (loginChainStep t (TimeoutChainEvent.timerFires o)).requestsIssued =
      t.requestsIssued + 1 := by
  refine ⟨rfl, ?_, rfl, rfl, ?_⟩
  · simp [part001Step]
  · simp [loginChainStep, ht]

/-- Witness for the amended C8 at concrete states and a concrete pending
outcome. -/
theorem C8_amended_cancellation_witness :
    (part001Step ⟨true, true, false, 1⟩ IntervalEvent.cleanup).intervalArmed =
      false ∧
    part001Step
        { (⟨true, true, false, 1⟩ : IntervalPollerState) with
          intervalArmed := false }
        (IntervalEvent.tick (CheckOutcome.response ⟨true, "pending", none⟩)) =
      { (⟨true, true, false, 1⟩ : IntervalPollerState) with
        intervalArmed := false } ∧
    part001Step ⟨true, true, false, 1⟩
        (IntervalEvent.lateResponse
          (CheckOutcome.response ⟨true, "pending", none⟩)) =
      part001Handle ⟨true, true, false, 1⟩
        (CheckOutcome.response ⟨true, "pending", none⟩) ∧
    (loginChainStep ⟨true, true, true, 1⟩
        TimeoutChainEvent.unmount).timerScheduled =
      (⟨true, true, true, 1⟩ : TimeoutChainState).timerScheduled ∧
    (loginChainStep ⟨true, true, true, 1⟩
        (TimeoutChainEvent.timerFires
          (CheckOutcome.response ⟨true, "pending", none⟩))).requestsIssued =
      (⟨true, true, true, 1⟩ : TimeoutChainState).requestsIssued + 1 :=
  C8_amended_cancellation ⟨true, true, false, 1⟩ ⟨true, true, false, 1⟩
    (CheckOutcome.response ⟨true, "pending", none⟩) ⟨true, true, true, 1⟩ rfl

/-- C9: the signup data-loading poller treats a 2xx response with
progress ≥ 100 as a terminal success even while the status field still
reads "pending": it stops polling and takes exactly the account-ready path
(success toast + redirect to login) that a "completed" status takes. -/
theorem C9_progress_hundred_completes (p : Int) (hp : 100 ≤ p) :
    SignupDataLoadingPoll.step (CheckOutcome.response ⟨true, "pending", some p⟩) =
      SignupDataLoadingPoll.Action.accountReady ∧
    SignupDataLoadingPoll.continues
      (CheckOutcome.response ⟨true, "pending", some p⟩) = false ∧
    SignupDataLoadingPoll.step (CheckOutcome.response ⟨true, "pending", some p⟩) =
      SignupDataLoadingPoll.step
        (CheckOutcome.response ⟨true, "completed", some p⟩) := by
  have hpg : progressGe100 (some p) = true := by
    simp only [progressGe100, decide_eq_true_eq]
    omega
  refine ⟨?_, ?_, ?_⟩ <;>
    simp [SignupDataLoadingPoll.step, SignupDataLoadingPoll.continues, hpg]

/-- Witness for C9 at progress exactly 100. -/
theorem C9_progress_hundred_completes_witness :
    SignupDataLoadingPoll.step (CheckOutcome.response ⟨true, "pending", some 100⟩) =
      SignupDataLoadingPoll.Action.accountReady ∧
    SignupDataLoadingPoll.continues
      (CheckOutcome.response ⟨true, "pending", some 100⟩) = false ∧
    SignupDataLoadingPoll.step (CheckOutcome.response ⟨true, "pending", some 100⟩) =
      SignupDataLoadingPoll.step
        (CheckOutcome.response ⟨true, "completed", some 100⟩) :=
  C9_progress_hundred_completes 100 (by norm_num)

/-- One bundle of `Math.random()` results (each in `[0,1)`) that the
per-product body of `ensureValidPriceData` may consume: `storePick` for
the random store index, `priceDraw` for the substitute lowest price,
`minDraw` and `maxDraw` for the substitute price range. -/
structure Draws where
  storePick : ℚ
  priceDraw : ℚ
  minDraw : ℚ
  maxDraw : ℚ
  deriving DecidableEq, Repr

/-- A product's `lowestPrice` object; absent fields are `none`. -/
structure LowestPrice where
  price : Option ℚ
  store : Option String
  deriving DecidableEq, Repr

/-- A product's `priceRange` object; absent fields are `none`. -/
structure PriceRange where
  min : Option ℚ
  max : Option ℚ
  period : Option String
  deriving DecidableEq, Repr

/-- The part of a dashboard product that `ensureValidPriceData` reads and
rewrites; all other fields pass through the spread unchanged. -/
structure ProductT where
  lowestPrice : Option LowestPrice
  priceRange : Option PriceRange
  deriving DecidableEq, Repr

/-- A store record as consulted by `ensureValidPriceData`. -/
structure StoreT where
  name : Option String
  chainName : Option String
  deriving DecidableEq, Repr

/-- JS string falsiness as used in the `||` chains: `undefined` and the
empty string are falsy. -/
def strFalsy : Option String → Bool
  | none => true
  | some s => s == ""

/-- JS `a || b || c` over two possibly-absent strings with a fallback. -/
def firstTruthy (a b : Option String) (c : String) : String :=
  if !strFalsy a then a.getD ""
  else if !strFalsy b then b.getD ""
  else c

/-- JS `x.toFixed(2)` followed by `Number.parseFloat`: rounding to two
decimal places. -/
def toFixed2 (q : ℚ) : ℚ := (round (q * 100) : ℚ) / 100

/-- JS `Math.floor(r * n)` used as an array index. -/
def floorIdx (r : ℚ) (n : Nat) : Nat := (⌊r * (n : ℚ)⌋).toNat

/-- The 20 fallback store names of `ensureValidPriceData`
(src/app/page.tsx, lines 512-533). -/
def storeVariety : List String :=
  ["Walmart", "Target", "Kroger", "Costco", "Whole Foods", "Safeway",
   "Trader Joe\x27s", "Publix", "Albertsons", "Ralphs", "Aldi", "Meijer",
   "H-E-B", "Wegmans", "Food Lion", "Stop & Shop", "Giant Eagle",
   "ShopRite", "Sprouts", "Fresh Market"]

/-- The per-product body of `ensureValidPriceData` (src/app/page.tsx,
lines 535-587), with the `Math.random()` results it may consume passed in
explicitly as `d`. -/
def validateProduct (stores : List StoreT) (index : Nat) (product : ProductT)
    (d : Draws) : ProductT :=
  let storeName0 : Option String :=
    match product.lowestPrice with
    | none => none
    | some lp => lp.store
  let fallbackName : String := storeVariety.getD (index % storeVariety.length) ""
  let storeName : String :=
    if strFalsy storeName0 || storeName0 == some "Unknown Store" then
      if 0 < stores.length then
        let rs := stores.getD (floorIdx d.storePick stores.length) ⟨none, none⟩
        firstTruthy rs.name rs.chainName fallbackName
      else fallbackName
    else storeName0.getD ""
  let price : ℚ :=
    match product.lowestPrice with
    | none => 0
    | some lp => lp.price.getD 0
  let validPrice : ℚ :=
    if 0 < price then price else toFixed2 (d.priceDraw * 10 + 1)
  let minPrice : ℚ :=
    match product.priceRange with
    | none => 0
    | some pr => pr.min.getD 0
  let maxPrice : ℚ :=
    match product.priceRange with
    | none => 0
    | some pr => pr.max.getD 0
  let validRange : ℚ × ℚ :=
    if minPrice = 0 ∧ maxPrice = 0 then
      let m := toFixed2 (d.minDraw * 5 + 1)
      (m, toFixed2 (m + d.maxDraw * 5))
    else if minPrice = 0 ∧ 0 < maxPrice then (toFixed2 (maxPrice * 0.8), maxPrice)
    else if 0 < minPrice ∧ maxPrice = 0 then (minPrice, toFixed2 (minPrice * 1.2))
    else (minPrice, maxPrice)
  let rangePeriod : String :=
    match product.priceRange with
    | none => "6 weeks"
    | some pr => if strFalsy pr.period then "6 weeks" else pr.period.getD ""
  { lowestPrice := some ⟨some validPrice, some storeName⟩,
    priceRange := some ⟨some validRange.1, some validRange.2, some rangePeriod⟩ }

/-- `ensureValidPriceData` (src/app/page.tsx, lines 510-588): the indexed
map of `validateProduct` over the product list, with the draws for the
product at index `i` given by `rand i`. -/
def ensureValidPriceData (products : List ProductT) (stores : List StoreT)
    (rand : Nat → Draws) : List ProductT :=
  products.enum.map (fun ip => validateProduct stores ip.1 ip.2 (rand ip.1))

/-- C10: the validated dashboard value is not a deterministic function of
the API response: for a product whose lowest price is 0, two admissible
random sources (all draws in `[0,1)`) make `ensureValidPriceData` return
different outputs on the same input, because a random substitute price is
generated. -/
theorem C10_nondeterministic_validation :
    ∃ (products : List ProductT) (stores : List StoreT) (r1 r2 : Nat → Draws),
      (∀ i, 0 ≤ (r1 i).priceDraw ∧ (r1 i).priceDraw < 1) ∧
      (∀ i, 0 ≤ (r2 i).priceDraw ∧ (r2 i).priceDraw < 1) ∧
      ensureValidPriceData products stores r1 ≠
        ensureValidPriceData products stores r2 := by
  refine ⟨[⟨some ⟨some 0, some "Walmart"⟩, some ⟨some 2, some 3, some "6 weeks"⟩⟩],
    [], fun _ => ⟨0, 0, 0, 0⟩, fun _ => ⟨0, 1/2, 0, 0⟩, ?_, ?_, ?_⟩
  · intro i
    norm_num
  · intro i
    norm_num
  · intro heq
    have h1 : toFixed2 ((0 : ℚ) * 10 + 1) = 1 := by
      norm_num [toFixed2, round_eq]
    have h2 : toFixed2 ((1 / 2 : ℚ) * 10 + 1) = 6 := by
      norm_num [toFixed2, round_eq]
    simp only [ensureValidPriceData, validateProduct, List.enum, List.enumFrom,
      List.map, strFalsy, h1, h2] at heq
    simp +decide at heq
